import Mathlib

/-!
Verification of the `RenderOnCanvas` component of harshulvijay/beautiful-code-snippets.

The repository holds four revisions of one Preact component that renders its
children to an HTML string, wraps the string in an SVG `foreignObject`
document, turns the SVG into an image source (an object URL or a Base64 data
URL) and paints the loaded image onto a canvas, plus a `main.tsx` bootstrap.

The embedding below translates, revision by revision:
  - the SVG markup construction (a template literal in the current revision,
    the hooks `useSvgForeignObject` and `useSVGForeignObject` in the two
    data-URL revisions, an inline template with hard-coded 500 in the
    earliest revision);
  - the Base64 encoders involved (the browser `btoa`, which rejects code
    units above 255, and the `js-base64` encode, which converts to UTF-8
    bytes first);
  - each revision's effect body as the record of observable actions it sets
    up: the markup it computes, the image source it assigns, the `onload`
    handler's canvas actions, and the cleanup function's actions;
  - the Preact `useEffect` contract for a dependency list, as a small host
    step machine that re-runs an effect when its dependency snapshot
    changes, fires the load event at most once per run, and runs the
    cleanup on unmount or on a dependency change;
  - the `main.tsx` bootstrap branching on dev/prod mode.

A children value is represented throughout by the HTML markup string that
`preact-render-to-string` renders it to, so rendering is the identity on
that string; JavaScript numbers for width and height are represented by
naturals, printed in decimal exactly as a template literal prints an
integral number.
-/

namespace RenderOnCanvas

/-! ## SVG markup construction, one definition per revision -/

/-- The `namespaces` array of the current revision
(src/src/RenderOnCanvas/RenderOnCanvas.tsx, lines 42-45). -/
def namespacesCurrent : List String :=
  ["xmlns=\"http://www.w3.org/1999/xhtml\"",
   "xmlns:svg=\"http://www.w3.org/2000/svg\""]

/-- The `svgMarkup` construction of the current revision
(src/src/RenderOnCanvas/RenderOnCanvas.tsx, lines 47-57): an array of
template-literal pieces joined on the empty string, with `namespaces`
joined on a single space. -/
def svgMarkupCurrent (htmlMarkup : String) (width height : Nat) : String :=
  String.join
    ["<svg:svg " ++ String.intercalate " " namespacesCurrent ++
       " height=\"" ++ toString height ++ "\" width=\"" ++ toString width ++ "\">",
     "<svg:foreignObject height=\"" ++ toString height ++ "\" width=\"" ++
       toString width ++ "\">",
     htmlMarkup,
     "</svg:foreignObject>",
     "</svg:svg>"]

/-- The `namespaces` array of the js-base64 revision
(src/unnamed/part_000, lines 29-32). -/
def namespacesJsb64 : List String :=
  ["xmlns=\"http://www.w3.org/1999/xhtml\"",
   "xmlns:svg=\"http://www.w3.org/2000/svg\""]

/-- The hook `useSvgForeignObject` of the js-base64 revision
(src/unnamed/part_000, lines 22-47). The callers always pass the
dimensions, so the `[defaultWidth, defaultHeight]` default of the
parameter never applies and is not modelled here. -/
def useSvgForeignObject (htmlMarkup : String) (width height : Nat) : String :=
  String.join
    ["<svg:svg " ++ String.intercalate " " namespacesJsb64 ++
       " height=\"" ++ toString height ++ "\" width=\"" ++ toString width ++ "\">",
     "<svg:foreignObject height=\"" ++ toString height ++ "\" width=\"" ++
       toString width ++ "\">",
     htmlMarkup,
     "</svg:foreignObject>",
     "</svg:svg>"]

/-- The `namespaces` array of the btoa revision
(src/unnamed/part_001, lines 22-25). -/
def namespacesBtoa : List String :=
  ["xmlns=\"http://www.w3.org/1999/xhtml\"",
   "xmlns:svg=\"http://www.w3.org/2000/svg\""]

/-- The hook `useSVGForeignObject` of the btoa revision
(src/unnamed/part_001, lines 15-40). As with the js-base64 revision, the
caller always passes the dimensions, so the `[150, 150]` parameter default
never applies. -/
def useSVGForeignObject (htmlMarkup : String) (width height : Nat) : String :=
  String.join
    ["<svg:svg " ++ String.intercalate " " namespacesBtoa ++
       " height=\"" ++ toString height ++ "\" width=\"" ++ toString width ++ "\">",
     "<svg:foreignObject height=\"" ++ toString height ++ "\" width=\"" ++
       toString width ++ "\">",
     htmlMarkup,
     "</svg:foreignObject>",
     "</svg:svg>"]

/-- The `namespaces` array of the earliest revision
(src/unnamed/part_000, lines 203-206). -/
def namespacesEarliest : List String :=
  ["xmlns=\"http://www.w3.org/1999/xhtml\"",
   "xmlns:svg=\"http://www.w3.org/2000/svg\""]

/-- The `svgMarkup` construction of the earliest revision
(src/unnamed/part_000, lines 208-218), with `500` written literally in the
templates. -/
def svgMarkupEarliest (htmlMarkup : String) : String :=
  String.join
    ["<svg:svg " ++ String.intercalate " " namespacesEarliest ++
       " height=\"500\" width=\"500\">",
     "<svg:foreignObject height=\"500\" width=\"500\">",
     htmlMarkup,
     "</svg:foreignObject>",
     "</svg:svg>"]

/-! ## Base64 and UTF-8 encoding -/

/-- The standard Base64 alphabet. -/
def base64Alphabet : List Char :=
  "ABCDEFGHIJKLMNOPQRSTUVWXYZabcdefghijklmnopqrstuvwxyz0123456789+/".data

/-- Character of the Base64 alphabet at a 6-bit index. -/
def base64Char (n : Nat) : Char := base64Alphabet.getD n 'A'

/-- Base64 characters of a byte list, three bytes to four characters, with
trailing groups padded with the character =. -/
def base64Chunks : List Nat → List Char
  | b0 :: b1 :: b2 :: rest =>
      let n := b0 * 65536 + b1 * 256 + b2
      base64Char (n / 262144) :: base64Char (n / 4096 % 64) ::
        base64Char (n / 64 % 64) :: base64Char (n % 64) :: base64Chunks rest
  | [b0, b1] =>
      let n := b0 * 65536 + b1 * 256
      [base64Char (n / 262144), base64Char (n / 4096 % 64),
       base64Char (n / 64 % 64), '=']
  | [b0] =>
      let n := b0 * 65536
      [base64Char (n / 262144), base64Char (n / 4096 % 64), '=', '=']
  | [] => []

/-- Base64 string of a byte list. -/
def base64OfBytes (bytes : List Nat) : String := String.mk (base64Chunks bytes)

/-- Model of the browser `window.btoa` applied to a list of code units: it
produces the Base64 encoding when every unit is at most 255 and throws an
InvalidCharacterError (here: `none`) otherwise. -/
def btoaBytes (bytes : List Nat) : Option String :=
  if bytes.all (fun b => b < 256) then some (base64OfBytes bytes) else none

/-- Model of the browser `btoa` on a string: its code units are the
string's characters. A code point above U+FFFF is two surrogate code units
in the browser, both above 255, so taking code points keeps the failure
condition exact: `btoa` throws on a string exactly when some code point
exceeds 255. -/
def btoa (s : String) : Option String :=
  btoaBytes (s.data.map Char.toNat)

/-- UTF-8 bytes of one code point. -/
def utf8Encode (c : Nat) : List Nat :=
  if c < 128 then [c]
  else if c < 2048 then [192 + c / 64, 128 + c % 64]
  else if c < 65536 then [224 + c / 4096, 128 + c / 64 % 64, 128 + c % 64]
  else [240 + c / 262144, 128 + c / 4096 % 64, 128 + c / 64 % 64, 128 + c % 64]

/-- UTF-8 bytes of a string. -/
def utf8Bytes (s : String) : List Nat :=
  ((s.data.map Char.toNat).map utf8Encode).flatten

/-- Model of `Base64.encode` of the js-base64 library
(src/unnamed/part_000, line 61): the Base64 encoding of the UTF-8 bytes of
the string. It is defined for every string, which is why the revision that
uses it is Unicode-safe. -/
def jsBase64Encode (s : String) : String := base64OfBytes (utf8Bytes s)

/-! ## Observable actions of an effect run -/

/-- An operation on the canvas 2D context. -/
inductive CanvasOp
  | clearRect (x y w h : Nat)
  | setFillStyle (color : String)
  | fillRect (x y w h : Nat)
  | drawImage (x y : Nat)
deriving DecidableEq, Repr

/-- An image source string. An object URL is identified by the content of
the blob it was created from: each effect run of the object-URL revisions
calls `URL.createObjectURL` exactly once, so within one run this
identification is exact. -/
inductive ImageSrc
  | objectURL (blobContent : String)
  | dataURL (url : String)
deriving DecidableEq, Repr

/-- An action a handler or a cleanup function performs. -/
inductive Action
  | canvas (op : CanvasOp)
  | revokeObjectURL (src : ImageSrc)
deriving DecidableEq, Repr

/-- What one completed run of a revision's effect body sets up: the strings
it computes, the image source, the list of `src` assignments it performs on
the image, whether an `onload` or an `onerror` handler is installed and
which actions the `onload` handler performs when the load event fires, and
the actions of the cleanup function the effect returns. -/
structure EffectRun where
  htmlMarkup : String
  svgMarkup : String
  imageSrc : ImageSrc
  srcAssignments : List ImageSrc
  onload : List Action
  hasOnErrorHandler : Bool
  cleanup : List Action
deriving DecidableEq, Repr

/-- Result of executing an effect body once: the canvas ref can be null (the
body does nothing and returns no cleanup), the body can throw (only the
btoa revision can, from `btoa`), or it completes with an `EffectRun`. -/
inductive EffectResult
  | noCanvas
  | thrown
  | ran (r : EffectRun)
deriving DecidableEq, Repr

/-- Model of `preact-render-to-string`: a children value is represented by
the HTML markup string it renders to, so rendering is the identity on that
string. -/
def renderToString (children : String) : String := children

/-! ## The current revision (src/src/RenderOnCanvas/RenderOnCanvas.tsx) -/

/-- `setCanvasBgColor` of the current revision (lines 68-73): guarded on the
context being non-null, it sets the fill style and fills the full
width-by-height rectangle. -/
def setCanvasBgColorCurrent (ctxNull : Bool) (width height : Nat)
    (color : String) : List Action :=
  if ctxNull then []
  else [.canvas (.setFillStyle color), .canvas (.fillRect 0 0 width height)]

/-- `clearCanvas` of the current revision (lines 75-82): guarded on the
context, it clears the full rectangle and then paints it white via
`setCanvasBgColor`. -/
def clearCanvasCurrent (ctxNull : Bool) (width height : Nat) : List Action :=
  if ctxNull then []
  else .canvas (.clearRect 0 0 width height) ::
    setCanvasBgColorCurrent ctxNull width height "white"

/-- The effect body of the current revision (lines 32-104): render the
children, build the SVG markup, create a blob and an object URL from it,
get the 2D context, install the `onload` handler (guarded on the context:
clear, draw at the origin, revoke the URL), assign `image.src` once, and
return a cleanup that clears the canvas and revokes the URL. -/
def effectCurrent (children : String) (width height : Nat)
    (canvasNull ctxNull : Bool) : EffectResult :=
  if canvasNull then .noCanvas
  else
    let htmlMarkup := renderToString children
    let svgMarkup := svgMarkupCurrent htmlMarkup width height
    let imageSrc := ImageSrc.objectURL svgMarkup
    .ran
      { htmlMarkup := htmlMarkup
        svgMarkup := svgMarkup
        imageSrc := imageSrc
        srcAssignments := [imageSrc]
        onload :=
          if ctxNull then []
          else clearCanvasCurrent ctxNull width height ++
            [.canvas (.drawImage 0 0), .revokeObjectURL imageSrc]
        hasOnErrorHandler := false
        cleanup := clearCanvasCurrent ctxNull width height ++
          [.revokeObjectURL imageSrc] }

/-! ## The js-base64 revision (src/unnamed/part_000, first file) -/

/-- The constants `defaultHeight` and `defaultWidth` of the js-base64
revision (lines 10-11). -/
def defaultHeight : Nat := 150

/-- See `defaultHeight`. -/
def defaultWidth : Nat := 150

/-- The hook `useSvgAsImageSrc` of the js-base64 revision (lines 56-68): a
new image whose `src` is a Base64 data URL of the SVG markup, encoded with
the js-base64 library. -/
def useSvgAsImageSrc (svgMarkup : String) : ImageSrc :=
  .dataURL ("data:image/svg+xml;base64," ++ jsBase64Encode svgMarkup)

/-- `setCanvasBgColor` of the js-base64 revision (lines 87-95), identical
in effect to the current revision's. -/
def setCanvasBgColorJsb64 (ctxNull : Bool) (width height : Nat)
    (color : String) : List Action :=
  if ctxNull then []
  else [.canvas (.setFillStyle color), .canvas (.fillRect 0 0 width height)]

/-- `clearCanvas` of the js-base64 revision (lines 102-109). -/
def clearCanvasJsb64 (ctxNull : Bool) (width height : Nat) : List Action :=
  if ctxNull then []
  else .canvas (.clearRect 0 0 width height) ::
    setCanvasBgColorJsb64 ctxNull width height "white"

/-- The effect body of the js-base64 revision (lines 139-165): render the
children, wrap in SVG via `useSvgForeignObject`, build the data-URL image
via `useSvgAsImageSrc` (which assigns `src` there, before the handler is
installed), install the guarded `onload` handler (clear then draw), and
return a cleanup, itself guarded on the context, that clears the canvas. -/
def effectJsb64 (children : String) (width height : Nat)
    (canvasNull ctxNull : Bool) : EffectResult :=
  if canvasNull then .noCanvas
  else
    let htmlMarkup := renderToString children
    let svgMarkup := useSvgForeignObject htmlMarkup width height
    let imageSrc := useSvgAsImageSrc svgMarkup
    .ran
      { htmlMarkup := htmlMarkup
        svgMarkup := svgMarkup
        imageSrc := imageSrc
        srcAssignments := [imageSrc]
        onload :=
          if ctxNull then []
          else clearCanvasJsb64 ctxNull width height ++
            [.canvas (.drawImage 0 0)]
        hasOnErrorHandler := false
        cleanup :=
          if ctxNull then [] else clearCanvasJsb64 ctxNull width height }

/-! ## The btoa revision (src/unnamed/part_001) -/

/-- `setCanvasBgColor` of the btoa revision (lines 87-92). -/
def setCanvasBgColorBtoa (ctxNull : Bool) (width height : Nat)
    (color : String) : List Action :=
  if ctxNull then []
  else [.canvas (.setFillStyle color), .canvas (.fillRect 0 0 width height)]

/-- `clearCanvas` of the btoa revision (lines 94-101). -/
def clearCanvasBtoa (ctxNull : Bool) (width height : Nat) : List Action :=
  if ctxNull then []
  else .canvas (.clearRect 0 0 width height) ::
    setCanvasBgColorBtoa ctxNull width height "white"

/-- The effect body of the btoa revision (lines 70-118): render the
children, wrap in SVG via `useSVGForeignObject`, Base64-encode with the
browser `btoa` (the statement that can throw, aborting the run before any
image or canvas step), build the data URL, install the guarded `onload`
handler (clear then draw), assign `src` once, and return a cleanup that
calls the guarded `clearCanvas`. -/
def effectBtoa (children : String) (width height : Nat)
    (canvasNull ctxNull : Bool) : EffectResult :=
  if canvasNull then .noCanvas
  else
    let htmlMarkup := renderToString children
    let svgMarkup := useSVGForeignObject htmlMarkup width height
    match btoa svgMarkup with
    | none => .thrown
    | some base64SvgMarkup =>
      let imageSrc := ImageSrc.dataURL
        ("data:image/svg+xml;base64," ++ base64SvgMarkup)
      .ran
        { htmlMarkup := htmlMarkup
          svgMarkup := svgMarkup
          imageSrc := imageSrc
          srcAssignments := [imageSrc]
          onload :=
            if ctxNull then []
            else clearCanvasBtoa ctxNull width height ++
              [.canvas (.drawImage 0 0)]
          hasOnErrorHandler := false
          cleanup := clearCanvasBtoa ctxNull width height }

/-! ## The earliest revision (src/unnamed/part_000, second file) -/

/-- `setCanvasBgColor` of the earliest revision (lines 229-234), with the
rectangle hard-coded to 500 by 500. -/
def setCanvasBgColorEarliest (ctxNull : Bool) (color : String) : List Action :=
  if ctxNull then []
  else [.canvas (.setFillStyle color), .canvas (.fillRect 0 0 500 500)]

/-- `clearCanvas` of the earliest revision (lines 236-243), hard-coded to
500 by 500. -/
def clearCanvasEarliest (ctxNull : Bool) : List Action :=
  if ctxNull then []
  else .canvas (.clearRect 0 0 500 500) ::
    setCanvasBgColorEarliest ctxNull "white"

/-- The effect body of the earliest revision (lines 193-265): like the
current revision but with no dimension props, every dimension written as
the literal 500. -/
def effectEarliest (children : String) (canvasNull ctxNull : Bool) :
    EffectResult :=
  if canvasNull then .noCanvas
  else
    let htmlMarkup := renderToString children
    let svgMarkup := svgMarkupEarliest htmlMarkup
    let imageSrc := ImageSrc.objectURL svgMarkup
    .ran
      { htmlMarkup := htmlMarkup
        svgMarkup := svgMarkup
        imageSrc := imageSrc
        srcAssignments := [imageSrc]
        onload :=
          if ctxNull then []
          else clearCanvasEarliest ctxNull ++
            [.canvas (.drawImage 0 0), .revokeObjectURL imageSrc]
        hasOnErrorHandler := false
        cleanup := clearCanvasEarliest ctxNull ++
          [.revokeObjectURL imageSrc] }

/-! ## Props and the Preact `useEffect` contract -/

/-- The props a caller passes: the children (as the HTML string they render
to), the optional `width` and `height` props, and the remaining forwarded
props as a name-value list. -/
structure Props where
  children : String
  width : Option Nat
  height : Option Nat
  rest : List (String × String)
deriving DecidableEq, Repr

/-- The `width = 150` parameter default of the current revision
(src/src/RenderOnCanvas/RenderOnCanvas.tsx, line 16): the default applies
when the prop is omitted. -/
def resolveWidthCurrent (p : Props) : Nat := p.width.getD 150

/-- The `height = 150` parameter default of the current revision (line 17). -/
def resolveHeightCurrent (p : Props) : Nat := p.height.getD 150

/-- The `width = defaultWidth` parameter default of the js-base64 revision
(src/unnamed/part_000, line 123). -/
def resolveWidthJsb64 (p : Props) : Nat := p.width.getD defaultWidth

/-- The `height = defaultHeight` parameter default of the js-base64
revision (line 124). -/
def resolveHeightJsb64 (p : Props) : Nat := p.height.getD defaultHeight

/-- The `width = 150` parameter default of the btoa revision
(src/unnamed/part_001, line 54). -/
def resolveWidthBtoa (p : Props) : Nat := p.width.getD 150

/-- The `height = 150` parameter default of the btoa revision (line 55). -/
def resolveHeightBtoa (p : Props) : Nat := p.height.getD 150

/-- The `[children]` dependency list of the current revision's `useEffect`
(src/src/RenderOnCanvas/RenderOnCanvas.tsx, line 105). -/
def depsCurrent (p : Props) : List String := [p.children]

/-- The `[children]` dependency list of the js-base64 revision
(src/unnamed/part_000, line 166). -/
def depsJsb64 (p : Props) : List String := [p.children]

/-- The `[children]` dependency list of the btoa revision
(src/unnamed/part_001, line 119). -/
def depsBtoa (p : Props) : List String := [p.children]

/-- The `[children]` dependency list of the earliest revision
(src/unnamed/part_000, line 266). -/
def depsEarliest (p : Props) : List String := [p.children]

/-- The component of the current revision as a function from props to the
result of its effect body, in a browser environment described by whether
the canvas ref and its 2D context are null. -/
def componentCurrent (canvasNull ctxNull : Bool) (p : Props) : EffectResult :=
  effectCurrent p.children (resolveWidthCurrent p) (resolveHeightCurrent p)
    canvasNull ctxNull

/-- The component of the js-base64 revision, as `componentCurrent`. -/
def componentJsb64 (canvasNull ctxNull : Bool) (p : Props) : EffectResult :=
  effectJsb64 p.children (resolveWidthJsb64 p) (resolveHeightJsb64 p)
    canvasNull ctxNull

/-- The component of the btoa revision, as `componentCurrent`. -/
def componentBtoa (canvasNull ctxNull : Bool) (p : Props) : EffectResult :=
  effectBtoa p.children (resolveWidthBtoa p) (resolveHeightBtoa p)
    canvasNull ctxNull

/-- The component of the earliest revision: it accepts no dimension props. -/
def componentEarliest (canvasNull ctxNull : Bool) (p : Props) : EffectResult :=
  effectEarliest p.children canvasNull ctxNull

/-- Host state of a mounted component: the dependency snapshot and run of
the active effect, if its last execution completed, and whether the load
event of the active run has already fired. -/
structure HostState where
  active : Option (List String × EffectRun)
  loaded : Bool
deriving DecidableEq, Repr

/-- An event the host delivers: a commit with new props, the firing of the
image load event, or unmounting. -/
inductive HostEvent
  | commit (p : Props)
  | loadFires
  | unmount
deriving DecidableEq, Repr

/-- An observable output of a host step: the effect body running its
pipeline (recorded whole, in pipeline order, in the `EffectRun`), or one
action of a handler or cleanup. -/
inductive OutEvent
  | pipelineRun (r : EffectRun)
  | act (a : Action)
deriving DecidableEq, Repr

/-- Running an effect for the first time with given props: if the body
completes, the run is recorded together with its dependency snapshot. -/
def startRun (effect : Props → EffectResult) (deps : Props → List String)
    (p : Props) : HostState × List OutEvent :=
  match effect p with
  | .ran r => (⟨some (deps p, r), false⟩, [.pipelineRun r])
  | _ => (⟨none, false⟩, [])

/-- The Preact `useEffect` contract for one effect with a dependency list,
as one host step: a commit re-runs the effect only when the dependency
snapshot changes, running the previous cleanup first; the load event fires
the `onload` handler at most once per run; unmounting runs the cleanup. -/
def stepHost (effect : Props → EffectResult) (deps : Props → List String) :
    HostState → HostEvent → HostState × List OutEvent
  | ⟨none, _⟩, .commit p => startRun effect deps p
  | ⟨some (d, r), l⟩, .commit p =>
      if deps p = d then (⟨some (d, r), l⟩, [])
      else
        let next := startRun effect deps p
        (next.1, r.cleanup.map .act ++ next.2)
  | ⟨some (d, r), false⟩, .loadFires =>
      (⟨some (d, r), true⟩, r.onload.map .act)
  | ⟨some (d, r), true⟩, .loadFires => (⟨some (d, r), true⟩, [])
  | ⟨none, l⟩, .loadFires => (⟨none, l⟩, [])
  | ⟨some (_, r), _⟩, .unmount => (⟨none, false⟩, r.cleanup.map .act)
  | ⟨none, _⟩, .unmount => (⟨none, false⟩, [])

/-! ## The bootstrap (src/src/main.tsx) -/

/-- An action of the bootstrap: a dynamic import, rendering the app into a
target element, or rendering the error fallback with the caught message. -/
inductive BootAction
  | importDevtools
  | importRender
  | importApp
  | importIndexCss
  | renderApp (targetId : String)
  | renderErrorFallback (targetId : String) (message : String)
deriving DecidableEq, Repr

/-- `callPreact` (src/src/main.tsx, lines 12-18): import the render
function, the App and the stylesheet, then render the app into the element
with id app. -/
def callPreact : List BootAction :=
  [.importRender, .importApp, .importIndexCss, .renderApp "app"]

/-- The build mode: exactly one of `import.meta.env.DEV` and
`import.meta.env.PROD` holds. -/
inductive Mode
  | dev
  | prod
deriving DecidableEq, Repr

/-- The top-level branching of src/src/main.tsx (lines 20-42): in dev
mode, import the devtools first and then call `callPreact`; if that
devtools import throws, import the render function and render the fallback,
with the caught message, into the element with id app; in production mode
call `callPreact` directly. -/
def mainBootstrap (mode : Mode) (devtoolsImportFails : Bool)
    (errMessage : String) : List BootAction :=
  match mode with
  | .dev =>
      if devtoolsImportFails then
        [.importDevtools, .importRender, .renderErrorFallback "app" errMessage]
      else
        .importDevtools :: callPreact
  | .prod => callPreact

/-! ## Helper lemmas -/

/-- Every character's code point is below 1114112. -/
theorem charToNat_lt (c : Char) : c.toNat < 1114112 := by
  have h := c.valid
  unfold Char.toNat
  unfold UInt32.isValidChar Nat.isValidChar at h
  rcases h with h | ⟨h1, h2⟩ <;> omega

/-- Every UTF-8 byte of a valid code point is below 256. -/
theorem utf8Encode_lt (c : Nat) (hc : c < 1114112) :
    ∀ b ∈ utf8Encode c, b < 256 := by
  intro b hb
  unfold utf8Encode at hb
  split_ifs at hb with h1 h2 h3 <;> simp at hb <;> omega

/-- Every byte of the UTF-8 encoding of a string is below 256. -/
theorem utf8Bytes_all_lt (s : String) :
    (utf8Bytes s).all (fun b => b < 256) = true := by
  rw [List.all_eq_true]
  intro b hb
  simp only [utf8Bytes, List.mem_flatten, List.mem_map] at hb
  obtain ⟨l, ⟨n, ⟨c, hc, hcn⟩, hl⟩, hbl⟩ := hb
  subst hl hcn
  simpa using utf8Encode_lt c.toNat (charToNat_lt c) b hbl

/-- The js-base64 encoding of any string passes the byte-validity check of
`btoa`: UTF-8 bytes are always below 256, so the encoding never throws. -/
theorem btoaBytes_utf8 (s : String) :
    btoaBytes (utf8Bytes s) = some (jsBase64Encode s) := by
  simp [btoaBytes, jsBase64Encode, utf8Bytes_all_lt s]

/-- The earliest revision's SVG construction equals the current one at
width and height 500. -/
theorem svgMarkupEarliest_eq (m : String) :
    svgMarkupEarliest m = svgMarkupCurrent m 500 500 := by
  simp [svgMarkupEarliest, svgMarkupCurrent, namespacesEarliest,
    namespacesCurrent, String.join, String.intercalate, String.intercalate.go,
    String.append_assoc, show toString (500 : Nat) = "500" from rfl]

/-! ## Statement helpers -/

/-- Canvas operations of an action list, in order, dropping URL revocations. -/
def canvasOps (l : List Action) : List CanvasOp :=
  l.filterMap fun a =>
    match a with
    | .canvas op => some op
    | .revokeObjectURL _ => none

/-- Every clear or fill rectangle in the list is the full rectangle from
the origin with the given width and height. -/
def rectsUse (w h : Nat) (l : List Action) : Bool :=
  l.all fun a =>
    match a with
    | .canvas (.clearRect x y rw rh) => x = 0 && y = 0 && rw = w && rh = h
    | .canvas (.fillRect x y rw rh) => x = 0 && y = 0 && rw = w && rh = h
    | _ => true

/-- The action sequence that clears the full width-by-height rectangle and
fills it white. -/
def whiteClearOps (w h : Nat) : List Action :=
  [.canvas (.clearRect 0 0 w h), .canvas (.setFillStyle "white"),
   .canvas (.fillRect 0 0 w h)]

/-- How many times one execution of an effect body assigns the image `src`,
that is, how many image loads it attempts: none when the canvas ref is
null or the body throws before reaching the assignment. -/
def loadAttempts : EffectResult → Nat
  | .ran r => r.srcAssignments.length
  | .noCanvas => 0
  | .thrown => 0

/-! ## The claims -/

/-- Claim C1: for every HTML markup string, width and height, the
SVG-generation step (in each revision that takes dimensions: the current
inline construction and the hooks `useSvgForeignObject` and
`useSVGForeignObject`) produces exactly the opening svg tag with the XHTML
default namespace and the svg-prefixed SVG namespace, then the opening
foreignObject tag, then the HTML unmodified, then the two closing tags,
concatenated. -/
theorem claim_C1 (h : String) (w ht : Nat) :
    svgMarkupCurrent h w ht =
      "<svg:svg xmlns=\"http://www.w3.org/1999/xhtml\" xmlns:svg=\"http://www.w3.org/2000/svg\" height=\"" ++
        toString ht ++ "\" width=\"" ++ toString w ++ "\">" ++
      ("<svg:foreignObject height=\"" ++ toString ht ++ "\" width=\"" ++
        toString w ++ "\">") ++
      h ++ "</svg:foreignObject>" ++ "</svg:svg>" ∧
    useSvgForeignObject h w ht = svgMarkupCurrent h w ht ∧
    useSVGForeignObject h w ht = svgMarkupCurrent h w ht := by
  refine ⟨?_, rfl, rfl⟩
  simp [svgMarkupCurrent, namespacesCurrent, String.join, String.intercalate,
    String.intercalate.go, String.append_assoc]

/-- Claim C2: the SVG-generation step is identical across the four
revisions: the js-base64 hook `useSvgForeignObject`, the btoa hook
`useSVGForeignObject` and the current revision's inline construction agree
on every markup string and every dimensions, and the earliest revision's
inline construction equals them at width and height 500. -/
theorem claim_C2 (m : String) (w h : Nat) :
    useSvgForeignObject m w h = svgMarkupCurrent m w h ∧
    useSVGForeignObject m w h = svgMarkupCurrent m w h ∧
    svgMarkupEarliest m = svgMarkupCurrent m 500 500 :=
  ⟨rfl, rfl, svgMarkupEarliest_eq m⟩

set_option maxHeartbeats 1600000 in
/-- Claim C4: in the data-URL revisions the image source is the string
data:image/svg+xml;base64, followed by the Base64 encoding of the SVG
markup; the js-base64 encoding succeeds for every string, its UTF-8 bytes
always passing the byte-validity check that `btoa` enforces, whereas the
btoa revision's encoding step throws on an input containing a code point
above U+00FF, witnessed by children rendering to the string α, on which
the whole effect aborts. -/
theorem claim_C4 (s c : String) (w h : Nat) (ctxNull : Bool) :
    (∃ r, effectJsb64 c w h false ctxNull = .ran r ∧
      r.imageSrc =
        .dataURL ("data:image/svg+xml;base64," ++ jsBase64Encode r.svgMarkup)) ∧
    btoaBytes (utf8Bytes s) = some (jsBase64Encode s) ∧
    (∀ b64, btoa (useSVGForeignObject (renderToString c) w h) = some b64 →
      ∃ r, effectBtoa c w h false ctxNull = .ran r ∧
        r.imageSrc = .dataURL ("data:image/svg+xml;base64," ++ b64)) ∧
    (btoa (useSVGForeignObject (renderToString c) w h) = none →
      effectBtoa c w h false ctxNull = .thrown) ∧
    ('α'.toNat > 255 ∧ effectBtoa "α" 150 150 false ctxNull = .thrown) := by
  refine ⟨⟨_, rfl, rfl⟩, btoaBytes_utf8 s, ?_, ?_, by decide, ?_⟩
  · intro b64 hb
    simp only [effectBtoa, if_neg Bool.false_ne_true, hb]
    exact ⟨_, rfl, rfl⟩
  · intro hn
    simp only [effectBtoa, if_neg Bool.false_ne_true, hn]
  · have hn : btoa (useSVGForeignObject (renderToString "α") 150 150) = none := by
      simp only [btoa, btoaBytes]
      rw [if_neg]
      intro hall
      rw [List.all_eq_true] at hall
      have hmem : 'α' ∈ (useSVGForeignObject (renderToString "α") 150 150).data := by
        decide
      have := hall _ (List.mem_map_of_mem Char.toNat hmem)
      simp at this
    simp only [effectBtoa, if_neg Bool.false_ne_true, hn]

/-- Claim C7: in dev mode the bootstrap imports the devtools module first
and only then renders the app into the element with id app; when that
devtools import throws, the app is never rendered and the fallback carrying
the caught message is rendered into the same element; in production mode
the app is rendered directly, with no devtools import and no fallback. -/
theorem claim_C7 (fails : Bool) (msg : String) :
    mainBootstrap .dev false msg = .importDevtools :: callPreact ∧
    (mainBootstrap .dev false msg).head? = some .importDevtools ∧
    BootAction.renderApp "app" ∈ (mainBootstrap .dev false msg).tail ∧
    mainBootstrap .dev true msg =
      [.importDevtools, .importRender, .renderErrorFallback "app" msg] ∧
    BootAction.renderApp "app" ∉ mainBootstrap .dev true msg ∧
    BootAction.renderErrorFallback "app" msg ∈ mainBootstrap .dev true msg ∧
    mainBootstrap .prod fails msg = callPreact ∧
    BootAction.importDevtools ∉ mainBootstrap .prod fails msg ∧
    (∀ t m, BootAction.renderErrorFallback t m ∉ mainBootstrap .prod fails msg) ∧
    BootAction.renderApp "app" ∈ mainBootstrap .prod fails msg := by
  simp [mainBootstrap, callPreact]

/-- Claim C8: in the three revisions with dimension props, `width` and
`height` each default to 150 when omitted and pass through when supplied,
and one pair of values is used consistently for the SVG document, the
foreignObject and every clear or fill rectangle; the earliest revision
takes no dimension props and uses 500 everywhere. -/
theorem claim_C8 (c : String) (w h : Nat) (rest : List (String × String))
    (ctxNull : Bool) :
    resolveWidthCurrent ⟨c, none, none, rest⟩ = 150 ∧
    resolveHeightCurrent ⟨c, none, none, rest⟩ = 150 ∧
    resolveWidthJsb64 ⟨c, none, none, rest⟩ = 150 ∧
    resolveHeightJsb64 ⟨c, none, none, rest⟩ = 150 ∧
    resolveWidthBtoa ⟨c, none, none, rest⟩ = 150 ∧
    resolveHeightBtoa ⟨c, none, none, rest⟩ = 150 ∧
    resolveWidthCurrent ⟨c, some w, some h, rest⟩ = w ∧
    resolveHeightCurrent ⟨c, some w, some h, rest⟩ = h ∧
    resolveWidthJsb64 ⟨c, some w, some h, rest⟩ = w ∧
    resolveHeightJsb64 ⟨c, some w, some h, rest⟩ = h ∧
    resolveWidthBtoa ⟨c, some w, some h, rest⟩ = w ∧
    resolveHeightBtoa ⟨c, some w, some h, rest⟩ = h ∧
    (∃ r, effectCurrent c w h false ctxNull = .ran r ∧
      r.svgMarkup = svgMarkupCurrent (renderToString c) w h ∧
      rectsUse w h (r.onload ++ r.cleanup) = true) ∧
    (∃ r, effectJsb64 c w h false ctxNull = .ran r ∧
      r.svgMarkup = useSvgForeignObject (renderToString c) w h ∧
      rectsUse w h (r.onload ++ r.cleanup) = true) ∧
    (∀ b64, btoa (useSVGForeignObject (renderToString c) w h) = some b64 →
      ∃ r, effectBtoa c w h false ctxNull = .ran r ∧
        r.svgMarkup = useSVGForeignObject (renderToString c) w h ∧
        rectsUse w h (r.onload ++ r.cleanup) = true) ∧
    (∃ r, effectEarliest c false ctxNull = .ran r ∧
      r.svgMarkup = svgMarkupEarliest (renderToString c) ∧
      svgMarkupEarliest (renderToString c) =
        svgMarkupCurrent (renderToString c) 500 500 ∧
      rectsUse 500 500 (r.onload ++ r.cleanup) = true) := by
  refine ⟨rfl, rfl, rfl, rfl, rfl, rfl, rfl, rfl, rfl, rfl, rfl, rfl,
    ⟨_, rfl, rfl, ?_⟩, ⟨_, rfl, rfl, ?_⟩, ?_,
    ⟨_, rfl, rfl, svgMarkupEarliest_eq _, ?_⟩⟩
  · cases ctxNull <;>
      simp [rectsUse, clearCanvasCurrent, setCanvasBgColorCurrent]
  · cases ctxNull <;>
      simp [rectsUse, clearCanvasJsb64, setCanvasBgColorJsb64]
  · intro b64 hb
    simp only [effectBtoa, if_neg Bool.false_ne_true, hb]
    refine ⟨_, rfl, rfl, ?_⟩
    cases ctxNull <;>
      simp [rectsUse, clearCanvasBtoa, setCanvasBgColorBtoa]
  · cases ctxNull <;>
      simp [rectsUse, clearCanvasEarliest, setCanvasBgColorEarliest]

set_option maxHeartbeats 1600000 in
/-- Claim C3: each effect run performs the pipeline in order: render the
children to an HTML string, wrap it in SVG, make the image source from the
SVG (an object URL in the current revision, a Base64 data URL in the
js-base64 revision) and assign it to the new image; the drawing (clear,
then draw at the origin) sits only in the `onload` handler, which the host
fires only on the load event; the cleanup actions run on unmount, and on a
commit whose children changed they run before the new pipeline. -/
theorem claim_C3 (c : String) (w h : Nat) (ctxNull : Bool) :
    (∃ r, effectCurrent c w h false ctxNull = .ran r ∧
      r.htmlMarkup = renderToString c ∧
      r.svgMarkup = svgMarkupCurrent r.htmlMarkup w h ∧
      r.imageSrc = .objectURL r.svgMarkup ∧
      r.srcAssignments = [r.imageSrc] ∧
      (∀ x y, Action.canvas (.drawImage x y) ∉ r.cleanup) ∧
      (ctxNull = false →
        r.onload = whiteClearOps w h ++
          [.canvas (.drawImage 0 0), .revokeObjectURL r.imageSrc]) ∧
      (ctxNull = true → r.onload = []) ∧
      (∀ d l, stepHost (componentCurrent false ctxNull) depsCurrent
          ⟨some (d, r), l⟩ .loadFires =
        (⟨some (d, r), true⟩, if l then [] else r.onload.map .act)) ∧
      (∀ d l, stepHost (componentCurrent false ctxNull) depsCurrent
          ⟨some (d, r), l⟩ .unmount = (⟨none, false⟩, r.cleanup.map .act)) ∧
      (∀ d l p, depsCurrent p ≠ d →
        ∃ r2, componentCurrent false ctxNull p = .ran r2 ∧
          stepHost (componentCurrent false ctxNull) depsCurrent
            ⟨some (d, r), l⟩ (.commit p) =
          (⟨some (depsCurrent p, r2), false⟩,
            r.cleanup.map .act ++ [.pipelineRun r2]))) ∧
    (∃ r, effectJsb64 c w h false ctxNull = .ran r ∧
      r.htmlMarkup = renderToString c ∧
      r.svgMarkup = useSvgForeignObject r.htmlMarkup w h ∧
      r.imageSrc = useSvgAsImageSrc r.svgMarkup ∧
      r.imageSrc =
        .dataURL ("data:image/svg+xml;base64," ++ jsBase64Encode r.svgMarkup) ∧
      r.srcAssignments = [r.imageSrc] ∧
      (∀ x y, Action.canvas (.drawImage x y) ∉ r.cleanup) ∧
      (ctxNull = false →
        r.onload = whiteClearOps w h ++ [.canvas (.drawImage 0 0)]) ∧
      (ctxNull = true → r.onload = []) ∧
      (∀ d l, stepHost (componentJsb64 false ctxNull) depsJsb64
          ⟨some (d, r), l⟩ .loadFires =
        (⟨some (d, r), true⟩, if l then [] else r.onload.map .act)) ∧
      (∀ d l, stepHost (componentJsb64 false ctxNull) depsJsb64
          ⟨some (d, r), l⟩ .unmount = (⟨none, false⟩, r.cleanup.map .act)) ∧
      (∀ d l p, depsJsb64 p ≠ d →
        ∃ r2, componentJsb64 false ctxNull p = .ran r2 ∧
          stepHost (componentJsb64 false ctxNull) depsJsb64
            ⟨some (d, r), l⟩ (.commit p) =
          (⟨some (depsJsb64 p, r2), false⟩,
            r.cleanup.map .act ++ [.pipelineRun r2]))) := by
  refine ⟨⟨_, rfl, rfl, rfl, rfl, rfl, ?_, ?_, ?_, ?_, ?_, ?_⟩,
    ⟨_, rfl, rfl, rfl, rfl, rfl, rfl, ?_, ?_, ?_, ?_, ?_, ?_⟩⟩
  · intro x y hmem
    cases ctxNull <;>
      simp [clearCanvasCurrent, setCanvasBgColorCurrent] at hmem
  · intro hc
    subst hc
    simp [clearCanvasCurrent, setCanvasBgColorCurrent, whiteClearOps]
  · intro hc
    subst hc
    simp
  · intro d l
    cases l <;> simp [stepHost]
  · intro d l
    simp [stepHost]
  · intro d l p hne
    refine ⟨_, rfl, ?_⟩
    simp [stepHost, startRun, hne, componentCurrent, effectCurrent]
  · intro x y hmem
    cases ctxNull <;>
      simp [clearCanvasJsb64, setCanvasBgColorJsb64] at hmem
  · intro hc
    subst hc
    simp [clearCanvasJsb64, setCanvasBgColorJsb64, whiteClearOps]
  · intro hc
    subst hc
    simp
  · intro d l
    cases l <;> simp [stepHost]
  · intro d l
    simp [stepHost]
  · intro d l p hne
    refine ⟨_, rfl, ?_⟩
    simp [stepHost, startRun, hne, componentJsb64, effectJsb64]

/-- Claim C5: in both object-URL revisions each effect run creates exactly
one object URL, the `onload` handler revokes it after drawing when the
context is non-null, the cleanup revokes it again, and after cleanup every
URL the run created has been revoked. -/
theorem claim_C5 (c : String) (w h : Nat) (ctxNull : Bool) :
    (∃ r, effectCurrent c w h false ctxNull = .ran r ∧
      r.srcAssignments = [r.imageSrc] ∧
      (ctxNull = false → ∃ pre, r.onload =
        pre ++ [.canvas (.drawImage 0 0), .revokeObjectURL r.imageSrc]) ∧
      r.cleanup.getLast? = some (.revokeObjectURL r.imageSrc) ∧
      (∀ u ∈ r.srcAssignments, Action.revokeObjectURL u ∈ r.cleanup)) ∧
    (∃ r, effectEarliest c false ctxNull = .ran r ∧
      r.srcAssignments = [r.imageSrc] ∧
      (ctxNull = false → ∃ pre, r.onload =
        pre ++ [.canvas (.drawImage 0 0), .revokeObjectURL r.imageSrc]) ∧
      r.cleanup.getLast? = some (.revokeObjectURL r.imageSrc) ∧
      (∀ u ∈ r.srcAssignments, Action.revokeObjectURL u ∈ r.cleanup)) := by
  refine ⟨⟨_, rfl, rfl, ?_, ?_, ?_⟩, ⟨_, rfl, rfl, ?_, ?_, ?_⟩⟩
  · intro hc
    subst hc
    exact ⟨_, rfl⟩
  · cases ctxNull <;>
      simp [clearCanvasCurrent, setCanvasBgColorCurrent]
  · intro u hu
    simp at hu
    subst hu
    simp
  · intro hc
    subst hc
    exact ⟨_, rfl⟩
  · cases ctxNull <;>
      simp [clearCanvasEarliest, setCanvasBgColorEarliest]
  · intro u hu
    simp at hu
    subst hu
    simp

/-- Claim C6 as amended: per effect run that completes, the component
assigns the image source exactly once and installs no error handler; with
a non-null context the `onload` handler clears and draws, with a null
context it does nothing; the host fires the handler at most once, drawing
never happens outside the handler, and a load that never fires leaves
nothing drawn with no failure-handling code to run. The amendment: in the
btoa revision this holds of the runs whose encoding step completes, for a
run that throws in `btoa` attempts no load at all (see the
counterexample). -/
theorem claim_C6 (c : String) (w h : Nat) (ctxNull : Bool) :
    (∃ r, effectCurrent c w h false ctxNull = .ran r ∧
      r.srcAssignments.length = 1 ∧
      r.hasOnErrorHandler = false ∧
      (∀ x y, Action.canvas (.drawImage x y) ∉ r.cleanup) ∧
      (ctxNull = false →
        r.onload = whiteClearOps w h ++
          [.canvas (.drawImage 0 0), .revokeObjectURL r.imageSrc]) ∧
      (ctxNull = true → r.onload = []) ∧
      (∀ d, stepHost (componentCurrent false ctxNull) depsCurrent
          ⟨some (d, r), true⟩ .loadFires = (⟨some (d, r), true⟩, []))) ∧
    (∀ b64, btoa (useSVGForeignObject (renderToString c) w h) = some b64 →
      ∃ r, effectBtoa c w h false ctxNull = .ran r ∧
        r.srcAssignments.length = 1 ∧
        r.hasOnErrorHandler = false ∧
        (∀ x y, Action.canvas (.drawImage x y) ∉ r.cleanup) ∧
        (ctxNull = false → r.onload = whiteClearOps w h ++
          [.canvas (.drawImage 0 0)]) ∧
        (ctxNull = true → r.onload = [])) := by
  refine ⟨⟨_, rfl, rfl, rfl, ?_, ?_, ?_, ?_⟩, ?_⟩
  · intro x y hmem
    cases ctxNull <;>
      simp [clearCanvasCurrent, setCanvasBgColorCurrent] at hmem
  · intro hc
    subst hc
    simp [clearCanvasCurrent, setCanvasBgColorCurrent, whiteClearOps]
  · intro hc
    subst hc
    simp
  · intro d
    simp [stepHost]
  · intro b64 hb
    simp only [effectBtoa, if_neg Bool.false_ne_true, hb]
    refine ⟨_, rfl, rfl, rfl, ?_, ?_, ?_⟩
    · intro x y hmem
      cases ctxNull <;>
        simp [clearCanvasBtoa, setCanvasBgColorBtoa] at hmem
    · intro hc
      subst hc
      simp [clearCanvasBtoa, setCanvasBgColorBtoa, whiteClearOps]
    · intro hc
      subst hc
      simp

/-- Claim C6 counterexample: the claim as stated is false for the btoa
revision. With children rendering to the string α, a mounted canvas and a
non-null context, the effect run throws in `btoa` and assigns the image
source zero times — not exactly once — so that run attempts no image
load. -/
theorem claim_C6_counterexample :
    effectBtoa "α" 150 150 false false = .thrown ∧
    loadAttempts (effectBtoa "α" 150 150 false false) = 0 ∧
    loadAttempts (effectBtoa "α" 150 150 false false) ≠ 1 := by
  have hn : btoa (useSVGForeignObject (renderToString "α") 150 150) = none := by
    simp only [btoa, btoaBytes]
    rw [if_neg]
    intro hall
    rw [List.all_eq_true] at hall
    have hmem : 'α' ∈ (useSVGForeignObject (renderToString "α") 150 150).data := by
      decide
    have := hall _ (List.mem_map_of_mem Char.toNat hmem)
    simp at this
  have ht : effectBtoa "α" 150 150 false false = .thrown := by
    simp only [effectBtoa, if_neg Bool.false_ne_true, hn]
  exact ⟨ht, by rw [ht]; rfl, by rw [ht]; simp [loadAttempts]⟩

/-- Claim C9: every revision's effect dependency list is exactly the
one-element list holding the children, and a commit that changes the width
prop, the height prop or any forwarded prop while the children stay equal
to the active snapshot re-runs nothing: the host step returns the state
unchanged and emits no output, so nothing already drawn is touched. -/
theorem claim_C9 (canvasNull ctxNull : Bool) (c0 : String) (r : EffectRun)
    (l : Bool) (p : Props) :
    depsCurrent p = [p.children] ∧
    depsJsb64 p = [p.children] ∧
    depsBtoa p = [p.children] ∧
    depsEarliest p = [p.children] ∧
    (p.children = c0 →
      stepHost (componentCurrent canvasNull ctxNull) depsCurrent
          ⟨some ([c0], r), l⟩ (.commit p) = (⟨some ([c0], r), l⟩, []) ∧
      stepHost (componentJsb64 canvasNull ctxNull) depsJsb64
          ⟨some ([c0], r), l⟩ (.commit p) = (⟨some ([c0], r), l⟩, []) ∧
      stepHost (componentBtoa canvasNull ctxNull) depsBtoa
          ⟨some ([c0], r), l⟩ (.commit p) = (⟨some ([c0], r), l⟩, []) ∧
      stepHost (componentEarliest canvasNull ctxNull) depsEarliest
          ⟨some ([c0], r), l⟩ (.commit p) = (⟨some ([c0], r), l⟩, [])) := by
  refine ⟨rfl, rfl, rfl, rfl, ?_⟩
  intro hc
  subst hc
  refine ⟨?_, ?_, ?_, ?_⟩ <;>
    simp [stepHost, depsCurrent, depsJsb64, depsBtoa, depsEarliest]

set_option maxHeartbeats 1600000 in
/-- Claim C10: in every revision all canvas work is guarded on the 2D
context: a null context makes the handler and cleanup perform no canvas
operation at all, and with a non-null context the `onload` handler is
exactly clear rectangle, fill white, draw — every draw immediately
preceded by the white clear — and the cleanup's canvas operations are
exactly the white clear, leaving the canvas cleared and filled white. -/
theorem claim_C10 (c : String) (w h : Nat) :
    (∃ r, effectCurrent c w h false true = .ran r ∧
      r.onload = [] ∧ canvasOps r.cleanup = []) ∧
    (∃ r, effectCurrent c w h false false = .ran r ∧
      r.onload = whiteClearOps w h ++
        [.canvas (.drawImage 0 0), .revokeObjectURL r.imageSrc] ∧
      canvasOps r.cleanup =
        [.clearRect 0 0 w h, .setFillStyle "white", .fillRect 0 0 w h]) ∧
    (∃ r, effectJsb64 c w h false true = .ran r ∧
      r.onload = [] ∧ canvasOps r.cleanup = []) ∧
    (∃ r, effectJsb64 c w h false false = .ran r ∧
      r.onload = whiteClearOps w h ++ [.canvas (.drawImage 0 0)] ∧
      canvasOps r.cleanup =
        [.clearRect 0 0 w h, .setFillStyle "white", .fillRect 0 0 w h]) ∧
    (∀ b64, btoa (useSVGForeignObject (renderToString c) w h) = some b64 →
      (∃ r, effectBtoa c w h false true = .ran r ∧
        r.onload = [] ∧ canvasOps r.cleanup = []) ∧
      (∃ r, effectBtoa c w h false false = .ran r ∧
        r.onload = whiteClearOps w h ++ [.canvas (.drawImage 0 0)] ∧
        canvasOps r.cleanup =
          [.clearRect 0 0 w h, .setFillStyle "white", .fillRect 0 0 w h])) ∧
    (∃ r, effectEarliest c false true = .ran r ∧
      r.onload = [] ∧ canvasOps r.cleanup = []) ∧
    (∃ r, effectEarliest c false false = .ran r ∧
      r.onload = whiteClearOps 500 500 ++
        [.canvas (.drawImage 0 0), .revokeObjectURL r.imageSrc] ∧
      canvasOps r.cleanup =
        [.clearRect 0 0 500 500, .setFillStyle "white",
         .fillRect 0 0 500 500]) := by
  refine ⟨⟨_, rfl, by simp, ?_⟩, ⟨_, rfl, ?_, ?_⟩,
    ⟨_, rfl, by simp, ?_⟩, ⟨_, rfl, ?_, ?_⟩, ?_,
    ⟨_, rfl, by simp, ?_⟩, ⟨_, rfl, ?_, ?_⟩⟩
  · simp [canvasOps, clearCanvasCurrent, setCanvasBgColorCurrent]
  · simp [clearCanvasCurrent, setCanvasBgColorCurrent, whiteClearOps]
  · simp [canvasOps, clearCanvasCurrent, setCanvasBgColorCurrent]
  · simp [canvasOps, clearCanvasJsb64, setCanvasBgColorJsb64]
  · simp [clearCanvasJsb64, setCanvasBgColorJsb64, whiteClearOps]
  · simp [canvasOps, clearCanvasJsb64, setCanvasBgColorJsb64]
  · intro b64 hb
    simp only [effectBtoa, if_neg Bool.false_ne_true, hb]
    refine ⟨⟨_, rfl, by simp, ?_⟩, ⟨_, rfl, ?_, ?_⟩⟩ <;>
      simp [canvasOps, clearCanvasBtoa, setCanvasBgColorBtoa, whiteClearOps]
  · simp [canvasOps, clearCanvasEarliest, setCanvasBgColorEarliest]
  · simp [clearCanvasEarliest, setCanvasBgColorEarliest, whiteClearOps]
  · simp [canvasOps, clearCanvasEarliest, setCanvasBgColorEarliest]

end RenderOnCanvas
